import Mathlib

/-!
Shallow embedding of the ufo-c core (src/ufos_rust/src/ufo_core.rs,
src/ufos_rust/src/ufo_objects.rs, src/ufos/rust/ufos_c/src/lib.rs).

Machine integers (usize/u64) are modelled as Nat; Rust operations that can
panic (checked_sub unwrap, assert!, division by zero, slice indexing,
subtraction overflow, expect/unwrap) are modelled as Except.error values
whose message starts with "panic:".  Fallible operations keep their Result
shape as Except.
-/

/-- Modelled from the spec: `up_to_nearest` lives in the repository's math.rs,
which is not under src/.  Spec section 3: a quantity "rounded up to a page
multiple"; this is the least multiple of `nearest` that is ≥ `x`. -/
def up_to_nearest (x nearest : Nat) : Nat :=
  ((x + nearest - 1) / nearest) * nearest

/-- Modelled from the spec: `down_to_nearest` lives in the repository's math.rs,
which is not under src/.  Spec section 4.2: the chunk-aligned offset is
`floor(offset / nearest) * nearest`. -/
def down_to_nearest (x nearest : Nat) : Nat :=
  (x / nearest) * nearest

/-- `num::Integer::div_ceil` on usize (external crate): ceiling division. -/
def nat_div_ceil (a b : Nat) : Nat := (a + b - 1) / b

/-- ufo_objects.rs `UfoObjectConfig` (the populate callback is carried
separately wherever it is needed, since Lean structures holding functions
would block decidable equality). -/
structure UfoObjectConfig where
  header_size_with_padding : Nat
  header_size : Nat
  stride : Nat
  elements_loaded_at_once : Nat
  element_ct : Nat
  true_size : Nat
deriving DecidableEq

/-- ufo_objects.rs `UfoObjectConfig::new_config`.  `page_size` is the value of
the `PAGE_SIZE` global (sysconf, asserted positive at startup).  Rust
`min_load_bytes / stride` panics when `stride = 0`; the source `assert!` is
kept as an error branch. -/
def UfoObjectConfig.new_config (page_size header_size element_ct stride : Nat)
    (min_load_ct : Option Nat) : Except String UfoObjectConfig :=
  let min_load := min_load_ct.getD 1
  let header_size_with_padding := up_to_nearest header_size page_size
  let body_size_with_padding := up_to_nearest (stride * element_ct) page_size
  let true_size := header_size_with_padding + body_size_with_padding
  let min_load_bytes := Nat.lcm page_size (stride * min_load)
  if stride = 0 then Except.error "panic: divide by zero" else
  let elements_loaded_at_once := min_load_bytes / stride
  if elements_loaded_at_once * stride = min_load_bytes then
    Except.ok {
      header_size := header_size,
      stride := stride,
      header_size_with_padding := header_size_with_padding,
      true_size := true_size,
      elements_loaded_at_once := elements_loaded_at_once,
      element_ct := element_ct }
  else Except.error "panic: assertion failed"

theorem up_to_nearest_le (x n : Nat) (h : 0 < n) : x ≤ up_to_nearest x n := by
  unfold up_to_nearest
  rw [Nat.mul_comm]
  have h1 := Nat.div_add_mod (x + n - 1) n
  have h2 : (x + n - 1) % n < n := Nat.mod_lt _ h
  omega

theorem new_config_ok_fields (page_size header_size element_ct stride : Nat)
    (min_load_ct : Option Nat) (cfg : UfoObjectConfig)
    (h : UfoObjectConfig.new_config page_size header_size element_ct stride min_load_ct
          = Except.ok cfg) :
    cfg.header_size = header_size ∧ cfg.stride = stride ∧
    cfg.element_ct = element_ct ∧
    cfg.header_size_with_padding = up_to_nearest header_size page_size ∧
    cfg.true_size = up_to_nearest header_size page_size
        + up_to_nearest (stride * element_ct) page_size ∧
    cfg.elements_loaded_at_once
      = Nat.lcm page_size (stride * min_load_ct.getD 1) / stride := by
  simp only [UfoObjectConfig.new_config] at h
  split at h
  · exact absurd h (by simp)
  · split at h
    · cases h
      simp
    · exact absurd h (by simp)

/-- Claim C7: for every configuration built with positive page size,
`element_ct ≥ 1` and `stride ≥ 1` (any `min_load_ct`, defaulting to 1),
construction succeeds and yields `elements_loaded_at_once * stride =
lcm(page_size, stride * min_load_ct)`, a chunk size divisible by both the
stride and the page size, and `true_size = roundup(header_size) +
roundup(stride * element_ct)`. -/
theorem new_config_chunk_geometry (page_size header_size element_ct stride : Nat)
    (min_load_ct : Option Nat)
    (hp : 0 < page_size) (hct : 1 ≤ element_ct) (hs : 1 ≤ stride) :
    ∃ cfg, UfoObjectConfig.new_config page_size header_size element_ct stride min_load_ct
        = Except.ok cfg ∧
      cfg.elements_loaded_at_once * cfg.stride
        = Nat.lcm page_size (stride * min_load_ct.getD 1) ∧
      stride ∣ cfg.elements_loaded_at_once * cfg.stride ∧
      page_size ∣ cfg.elements_loaded_at_once * cfg.stride ∧
      cfg.true_size = up_to_nearest header_size page_size
        + up_to_nearest (stride * element_ct) page_size := by
  have hs0 : stride ≠ 0 := by omega
  have hdvd : stride ∣ Nat.lcm page_size (stride * min_load_ct.getD 1) :=
    dvd_trans (dvd_mul_right stride _) (Nat.dvd_lcm_right _ _)
  have hcancel : Nat.lcm page_size (stride * min_load_ct.getD 1) / stride * stride
      = Nat.lcm page_size (stride * min_load_ct.getD 1) :=
    Nat.div_mul_cancel hdvd
  refine ⟨{ header_size := header_size, stride := stride,
            header_size_with_padding := up_to_nearest header_size page_size,
            true_size := up_to_nearest header_size page_size
              + up_to_nearest (stride * element_ct) page_size,
            elements_loaded_at_once := Nat.lcm page_size (stride * min_load_ct.getD 1) / stride,
            element_ct := element_ct }, ?_, ?_, ?_, ?_, ?_⟩
  · simp only [UfoObjectConfig.new_config, if_neg hs0]
    exact if_pos hcancel
  · exact hcancel
  · exact dvd_mul_left stride _
  · show page_size ∣ Nat.lcm page_size (stride * min_load_ct.getD 1) / stride * stride
    rw [hcancel]
    exact Nat.dvd_lcm_left _ _
  · rfl

theorem new_config_chunk_geometry_witness :
    0 < 4 ∧ 1 ≤ 2 ∧ 1 ≤ 3 ∧
    ∃ cfg, UfoObjectConfig.new_config 4 5 2 3 none = Except.ok cfg ∧
      cfg.elements_loaded_at_once * cfg.stride = Nat.lcm 4 (3 * (none : Option Nat).getD 1) ∧
      3 ∣ cfg.elements_loaded_at_once * cfg.stride ∧
      4 ∣ cfg.elements_loaded_at_once * cfg.stride ∧
      cfg.true_size = up_to_nearest 5 4 + up_to_nearest (3 * 2) 4 :=
  ⟨by decide, by decide, by decide,
    new_config_chunk_geometry 4 5 2 3 none (by decide) (by decide) (by decide)⟩

/-- ufo_core.rs `UfoCoreConfig`. -/
structure UfoCoreConfig where
  writeback_temp_path : String
  high_watermark : Nat
  low_watermark : Nat
deriving DecidableEq

/-- ufo_objects.rs `UfoFileWriteback`: the shared file mapping of size
`bitmap_bytes + data_bytes`; its bytes are modelled as a list. -/
structure UfoFileWriteback where
  total_bytes : Nat
  bitmap_bytes : Nat
  mmap : List Nat
deriving DecidableEq

/-- ufo_objects.rs `UfoFileWriteback::new` (state part).  The io errors of the
temp-file creation and the mapping are external; a fresh file truncated to
size reads as zeros. -/
def UfoFileWriteback.new (page_size : Nat) (cfg : UfoObjectConfig) : UfoFileWriteback :=
  let chunk_ct := nat_div_ceil cfg.element_ct cfg.elements_loaded_at_once
  let bitmap_bytes := up_to_nearest (nat_div_ceil chunk_ct 8) page_size
  let data_bytes := cfg.element_ct * cfg.stride
  { total_bytes := bitmap_bytes + data_bytes,
    bitmap_bytes := bitmap_bytes,
    mmap := List.replicate (bitmap_bytes + data_bytes) 0 }

/-- ufo_objects.rs `UfoObject`.  `base_addr` is the integer value of the
anonymous reservation pointer (`mmap.as_ptr()`); `mmap` models the bytes
currently readable at that reservation. -/
structure UfoObject where
  id : Nat
  config : UfoObjectConfig
  base_addr : Nat
  mmap : List Nat
  writeback_util : UfoFileWriteback
deriving DecidableEq

/-- ufo_objects.rs `UfoOffset`. -/
structure UfoOffset where
  base_addr : Nat
  stride : Nat
  header_bytes : Nat
  absolute_offset_bytes : Nat
deriving DecidableEq

/-- ufo_objects.rs `UfoOffset::from_addr`.  `checked_sub(...).unwrap_or_else(panic)`
and the header `assert!` are the two panic branches. -/
def UfoOffset.from_addr (ufo : UfoObject) (addr : Nat) : Except String UfoOffset :=
  let base_addr := ufo.base_addr
  if addr < base_addr then Except.error "panic: Addr less than base"
  else
    let absolute_offset_bytes := addr - base_addr
    let header_bytes := ufo.config.header_size_with_padding
    if absolute_offset_bytes < header_bytes then
      Except.error "panic: Cannot offset into the header"
    else
      Except.ok { base_addr := base_addr, stride := ufo.config.stride,
                  header_bytes := header_bytes,
                  absolute_offset_bytes := absolute_offset_bytes }

def UfoOffset.absolute_offset (o : UfoOffset) : Nat := o.absolute_offset_bytes

def UfoOffset.offset_from_header (o : UfoOffset) : Nat :=
  o.absolute_offset_bytes - o.header_bytes

def UfoOffset.as_ptr_int (o : UfoOffset) : Nat := o.base_addr + o.absolute_offset

def UfoOffset.as_index_floor (o : UfoOffset) : Nat :=
  o.offset_from_header / o.stride

def UfoOffset.down_to_nearest_n_relative_to_header (o : UfoOffset) (nearest : Nat) :
    UfoOffset :=
  { o with absolute_offset_bytes :=
      o.header_bytes + down_to_nearest o.offset_from_header nearest }

/-- ufo_objects.rs `UfoChunk`.  The weak back-reference is modelled by the
owning id (resolved against the live registry where the source upgrades it);
`length = none` is the tombstone (`Option<NonZeroUsize>`); the blake3 hash
value is a Nat produced by an explicit hash-function parameter `H`. -/
structure UfoChunk where
  ufo_id : Nat
  offset : UfoOffset
  length : Option Nat
  hash : Nat
deriving DecidableEq

/-- ufo_objects.rs `UfoChunk::new` (`NonZeroUsize::new` maps 0 to none). -/
def UfoChunk.new (H : List Nat → Nat) (id : Nat) (offset : UfoOffset)
    (initial_data : List Nat) : UfoChunk :=
  { ufo_id := id, offset := offset,
    length := if initial_data.length = 0 then none else some initial_data.length,
    hash := H initial_data }

def UfoChunk.size (c : UfoChunk) : Nat := c.length.getD 0

/-- Modelled from the spec: `with_slice` lives in the repository's
mmap_wrapers.rs, which is not under src/.  It applies `f` to the `length`
bytes of the mapping starting at `offset` when that range is in bounds. -/
def with_slice {α : Type} (mmap : List Nat) (offset length : Nat) (f : List Nat → α) :
    Option α :=
  if offset + length ≤ mmap.length then
    some (f ((mmap.drop offset).take length))
  else none

/-- Overwrite `dst` starting at `offset` with the bytes of `src`
(`copy_from_slice` into a `from_raw_parts_mut` window). -/
def list_write (dst : List Nat) (offset : Nat) (src : List Nat) : List Nat :=
  dst.take offset ++ src ++ dst.drop (offset + src.length)

/-- `madvise(MADV_DONTNEED)` on an anonymous private mapping: subsequent reads
of the range observe zeros (the syscall itself returning non-zero is an
external platform failure, not modelled). -/
def madvise_dontneed (mmap : List Nat) (offset length : Nat) : List Nat :=
  list_write mmap offset (List.replicate (min length (mmap.length - offset)) 0)

/-- ufo_objects.rs `UfoObject::writeback`: copy the chunk's live bytes into the
writeback mapping at `bitmap_bytes + offset_from_header`.  The source builds a
raw window of exactly `chunk.length` bytes and asserts the live slice has the
same length. -/
def UfoObject.writeback (o : UfoObject) (c : UfoChunk) : Except String UfoObject :=
  let offset := o.writeback_util.bitmap_bytes + c.offset.offset_from_header
  match c.length with
  | none => Except.error "panic: unwrap of none length"
  | some length =>
    match with_slice o.mmap c.offset.absolute_offset length (fun live => live) with
    | none => Except.error "Chunk not valid"
    | some live_data =>
      if live_data.length = length then
        Except.ok { o with writeback_util :=
          { o.writeback_util with
            mmap := list_write o.writeback_util.mmap offset live_data } }
      else Except.error "panic: assert live len"

/-- ufo_objects.rs `UfoChunk::free_and_writeback_dirty`.  `upgraded` is the
result of upgrading the chunk's weak object reference.  Returns the (possibly
updated) object, the chunk after the call, and the returned byte count. -/
def UfoChunk.free_and_writeback_dirty (H : List Nat → Nat)
    (upgraded : Option UfoObject) (c : UfoChunk) :
    Except String (Option UfoObject × UfoChunk × Nat) :=
  match c.length with
  | some length =>
    match upgraded with
    | some obj =>
      match with_slice obj.mmap c.offset.absolute_offset length H with
      | none => Except.error "panic: hash slice unwrap"
      | some calculated_hash =>
        let step : Except String UfoObject :=
          if c.hash ≠ calculated_hash then obj.writeback c else Except.ok obj
        match step with
        | Except.error e => Except.error e
        | Except.ok obj1 =>
          Except.ok (some { obj1 with
              mmap := madvise_dontneed obj1.mmap c.offset.absolute_offset length },
            { c with length := none }, length)
    | none => Except.ok (none, { c with length := none }, length)
  | none => Except.ok (upgraded, c, 0)

def UfoChunk.mark_freed (c : UfoChunk) : UfoChunk := { c with length := none }

/-- Look up an object by id in the registry (HashMap::get on `objects_by_id`). -/
def lookup_id (m : List (Nat × UfoObject)) (id : Nat) : Option UfoObject :=
  (m.find? (fun kv => kv.1 == id)).map (fun kv => kv.2)

/-- Write an (optionally) updated object back under its id; `none` means the
weak reference was dead and nothing was locked or mutated. -/
def update_id (m : List (Nat × UfoObject)) (id : Nat) (upd : Option UfoObject) :
    List (Nat × UfoObject) :=
  match upd with
  | none => m
  | some o => m.map (fun kv => if kv.1 = id then (kv.1, o) else kv)

/-- ufo_core.rs `UfoChunks`: FIFO of chunks plus the running byte total and the
shared core config. -/
structure UfoChunks where
  loaded_chunks : List UfoChunk
  used_memory : Nat
  config : UfoCoreConfig
deriving DecidableEq

/-- ufo_core.rs `UfoChunks::add`. -/
def UfoChunks.add (s : UfoChunks) (chunk : UfoChunk) : UfoChunks :=
  { s with used_memory := s.used_memory + chunk.size,
           loaded_chunks := s.loaded_chunks ++ [chunk] }

/-- ufo_core.rs `UfoChunks::drop_ufo_chunks`: mark every chunk of the id freed,
then recompute the byte total over all chunks. -/
def UfoChunks.drop_ufo_chunks (s : UfoChunks) (ufo_id : Nat) : UfoChunks :=
  let chunks := s.loaded_chunks.map
    (fun c => if c.ufo_id = ufo_id then c.mark_freed else c)
  { s with loaded_chunks := chunks,
           used_memory := (chunks.map UfoChunk.size).sum }

/-- The while-loop body of ufo_core.rs `UfoChunks::free_until_low_water_mark`:
pop the oldest chunk, run its eviction protocol against the registry `objs`
(the weak-reference upgrade), subtract the returned size.  The usize
subtraction `used_memory -= size` keeps its Rust panic-on-underflow guard. -/
def free_until_go (H : List Nat → Nat) (low : Nat) :
    List (Nat × UfoObject) → List UfoChunk → Nat →
    Except String (List (Nat × UfoObject) × List UfoChunk × Nat)
  | objs, [], used =>
    if used ≤ low then Except.ok (objs, [], used) else Except.error "nothing to free"
  | objs, c :: rest, used =>
    if used ≤ low then Except.ok (objs, c :: rest, used)
    else
      match UfoChunk.free_and_writeback_dirty H (lookup_id objs c.ufo_id) c with
      | Except.error e => Except.error e
      | Except.ok (upd, _, size) =>
        if size ≤ used then
          free_until_go H low (update_id objs c.ufo_id upd) rest (used - size)
        else Except.error "panic: usize underflow"

/-- ufo_core.rs `UfoChunks::free_until_low_water_mark` (wrapper re-assembling
the mutated-in-place struct). -/
def UfoChunks.free_until_low_water_mark (H : List Nat → Nat)
    (objs : List (Nat × UfoObject)) (s : UfoChunks) :
    Except String (List (Nat × UfoObject) × UfoChunks) :=
  match free_until_go H s.config.low_watermark objs s.loaded_chunks s.used_memory with
  | Except.error e => Except.error e
  | Except.ok r =>
    Except.ok (r.1, { s with loaded_chunks := r.2.1, used_memory := r.2.2 })

/-- ufo_core.rs `UfoCore::ensure_capcity` (sic).  The source `assert!` and the
`.unwrap()` of the eviction result are panic branches. -/
def ensure_capcity (H : List Nat → Nat) (config : UfoCoreConfig)
    (objs : List (Nat × UfoObject)) (cache : UfoChunks) (to_load : Nat) :
    Except String (List (Nat × UfoObject) × UfoChunks) :=
  if to_load + config.low_watermark < config.high_watermark then
    if to_load + cache.used_memory > config.high_watermark then
      cache.free_until_low_water_mark H objs
    else Except.ok (objs, cache)
  else Except.error "panic: assertion failed"

/-- Byte total of the non-tombstoned cache entries (spec invariant 3). -/
def chunksBytes (l : List UfoChunk) : Nat :=
  ((l.filter (fun c => c.length.isSome)).map UfoChunk.size).sum

theorem chunksBytes_eq_sum (l : List UfoChunk) :
    chunksBytes l = (l.map UfoChunk.size).sum := by
  induction l with
  | nil => rfl
  | cons c rest ih =>
    unfold chunksBytes at ih ⊢
    cases h : c.length with
    | none =>
      have hs : c.size = 0 := by simp [UfoChunk.size, h]
      simp [List.filter, h, ih, hs]
    | some n =>
      simp [List.filter, h, ih]

theorem free_and_writeback_dirty_size (H : List Nat → Nat) (upgraded : Option UfoObject)
    (c : UfoChunk) (u1 : Option UfoObject) (c1 : UfoChunk) (n : Nat)
    (h : UfoChunk.free_and_writeback_dirty H upgraded c = Except.ok (u1, c1, n)) :
    n = c.size := by
  simp only [UfoChunk.free_and_writeback_dirty] at h
  split at h
  next len hl =>
    split at h
    next obj =>
      split at h
      · exact absurd h (by simp)
      next calculated hw =>
        split at h
        · exact absurd h (by simp)
        next obj1 hstep =>
          cases h
          simp [UfoChunk.size, hl]
    next =>
      cases h
      simp [UfoChunk.size, hl]
  next hl =>
    cases h
    simp [UfoChunk.size, hl]

theorem free_until_go_le (H : List Nat → Nat) (low : Nat) :
    ∀ (chunks : List UfoChunk) (objs : List (Nat × UfoObject)) (used : Nat)
      (o : List (Nat × UfoObject)) (l : List UfoChunk) (u : Nat),
      free_until_go H low objs chunks used = Except.ok (o, l, u) → u ≤ low := by
  intro chunks
  induction chunks with
  | nil =>
    intro objs used o l u h
    unfold free_until_go at h
    split at h
    · cases h; assumption
    · exact absurd h (by simp)
  | cons c rest ih =>
    intro objs used o l u h
    unfold free_until_go at h
    split at h
    · cases h; assumption
    · split at h
      · exact absurd h (by simp)
      next upd c2 size hfree =>
        split at h
        · exact ih _ _ _ _ _ h
        · exact absurd h (by simp)

theorem free_until_go_inv (H : List Nat → Nat) (low : Nat) :
    ∀ (chunks : List UfoChunk) (objs : List (Nat × UfoObject)) (used : Nat)
      (o : List (Nat × UfoObject)) (l : List UfoChunk) (u : Nat),
      used = (chunks.map UfoChunk.size).sum →
      free_until_go H low objs chunks used = Except.ok (o, l, u) →
      u = (l.map UfoChunk.size).sum := by
  intro chunks
  induction chunks with
  | nil =>
    intro objs used o l u hinv h
    unfold free_until_go at h
    split at h
    · cases h; simpa using hinv
    · exact absurd h (by simp)
  | cons c rest ih =>
    intro objs used o l u hinv h
    unfold free_until_go at h
    split at h
    · cases h; simpa using hinv
    · split at h
      · exact absurd h (by simp)
      next upd c2 size hfree =>
        have hsz : size = c.size := free_and_writeback_dirty_size H _ c upd c2 size hfree
        split at h
        next hle =>
          refine ih _ _ _ _ _ ?_ h
          simp only [List.map_cons, List.sum_cons] at hinv
          omega
        · exact absurd h (by simp)

/-- Claim C6: `used_memory = Σ chunk.length` over non-tombstoned chunks is
preserved by every cache operation: `add`, `drop_ufo_chunks`, and
`free_until_low_water_mark` run against an arbitrary registry — in particular
one in which a chunk's owning object has already been dropped (the weak
upgrade fails). -/
theorem cache_used_bytes_invariant (H : List Nat → Nat) (s : UfoChunks)
    (c : UfoChunk) (id : Nat) (objs o1 : List (Nat × UfoObject)) (s1 : UfoChunks) :
    (s.used_memory = chunksBytes s.loaded_chunks →
      (s.add c).used_memory = chunksBytes (s.add c).loaded_chunks)
  ∧ ((s.drop_ufo_chunks id).used_memory
      = chunksBytes (s.drop_ufo_chunks id).loaded_chunks)
  ∧ (s.used_memory = chunksBytes s.loaded_chunks →
      s.free_until_low_water_mark H objs = Except.ok (o1, s1) →
      s1.used_memory = chunksBytes s1.loaded_chunks) := by
  refine ⟨?_, ?_, ?_⟩
  · intro hinv
    simp only [UfoChunks.add, chunksBytes_eq_sum, List.map_append, List.sum_append] at *
    simp [hinv]
  · simp only [UfoChunks.drop_ufo_chunks, chunksBytes_eq_sum]
  · intro hinv h
    unfold UfoChunks.free_until_low_water_mark at h
    split at h
    · exact absurd h (by simp)
    next r hgo =>
      cases h
      simp only [chunksBytes_eq_sum]
      exact free_until_go_inv H s.config.low_watermark s.loaded_chunks objs
        s.used_memory r.1 r.2.1 r.2.2 (by rw [hinv, chunksBytes_eq_sum])
        (by rw [hgo])

theorem cache_used_bytes_invariant_witness :
    ((3 : Nat) = chunksBytes [⟨1, ⟨0, 1, 0, 0⟩, some 3, 0⟩]
      ∧ (UfoChunks.add ⟨[⟨1, ⟨0, 1, 0, 0⟩, some 3, 0⟩], 3, ⟨"/tmp", 100, 0⟩⟩
          ⟨2, ⟨0, 1, 0, 0⟩, some 4, 0⟩).used_memory
        = chunksBytes (UfoChunks.add ⟨[⟨1, ⟨0, 1, 0, 0⟩, some 3, 0⟩], 3, ⟨"/tmp", 100, 0⟩⟩
          ⟨2, ⟨0, 1, 0, 0⟩, some 4, 0⟩).loaded_chunks)
  ∧ ((UfoChunks.drop_ufo_chunks ⟨[⟨1, ⟨0, 1, 0, 0⟩, some 3, 0⟩], 3, ⟨"/tmp", 100, 0⟩⟩ 1).used_memory
      = chunksBytes (UfoChunks.drop_ufo_chunks
          ⟨[⟨1, ⟨0, 1, 0, 0⟩, some 3, 0⟩], 3, ⟨"/tmp", 100, 0⟩⟩ 1).loaded_chunks)
  ∧ (UfoChunks.free_until_low_water_mark (fun l => l.sum) []
        ⟨[⟨1, ⟨0, 1, 0, 0⟩, some 3, 0⟩], 3, ⟨"/tmp", 100, 0⟩⟩
      = Except.ok ([], ⟨[], 0, ⟨"/tmp", 100, 0⟩⟩)
      ∧ (UfoChunks.mk [] 0 ⟨"/tmp", 100, 0⟩).used_memory
        = chunksBytes (UfoChunks.mk [] 0 ⟨"/tmp", 100, 0⟩).loaded_chunks) :=
  ⟨⟨by decide,
    (cache_used_bytes_invariant (fun l => l.sum)
      ⟨[⟨1, ⟨0, 1, 0, 0⟩, some 3, 0⟩], 3, ⟨"/tmp", 100, 0⟩⟩
      ⟨2, ⟨0, 1, 0, 0⟩, some 4, 0⟩ 1 [] [] ⟨[], 0, ⟨"/tmp", 100, 0⟩⟩).1 (by decide)⟩,
   (cache_used_bytes_invariant (fun l => l.sum)
      ⟨[⟨1, ⟨0, 1, 0, 0⟩, some 3, 0⟩], 3, ⟨"/tmp", 100, 0⟩⟩
      ⟨2, ⟨0, 1, 0, 0⟩, some 4, 0⟩ 1 [] [] ⟨[], 0, ⟨"/tmp", 100, 0⟩⟩).2.1,
   ⟨rfl,
    (cache_used_bytes_invariant (fun l => l.sum)
      ⟨[⟨1, ⟨0, 1, 0, 0⟩, some 3, 0⟩], 3, ⟨"/tmp", 100, 0⟩⟩
      ⟨2, ⟨0, 1, 0, 0⟩, some 4, 0⟩ 1 [] [] ⟨[], 0, ⟨"/tmp", 100, 0⟩⟩).2.2
      (by decide) rfl⟩⟩

/-- Claim C3: with the source's asserted precondition `to_load + low_watermark
< high_watermark` (enforced inside `ensure_capcity`) and an admitted chunk of
size at most `to_load` (= chunk_size), the cache satisfies `used_memory ≤
high_watermark` immediately after the fault handler admits the chunk; and any
eviction pass that returns successfully (chunks were still available) ends
with `used_memory ≤ low_watermark`. -/
theorem watermark_compliance (H : List Nat → Nat) (config : UfoCoreConfig)
    (objs o1 o2 : List (Nat × UfoObject)) (cache cache1 cache2 : UfoChunks)
    (to_load : Nat) (c : UfoChunk) :
    (c.size ≤ to_load → cache.config = config →
      ensure_capcity H config objs cache to_load = Except.ok (o1, cache1) →
      (cache1.add c).used_memory ≤ config.high_watermark)
  ∧ (cache.free_until_low_water_mark H objs = Except.ok (o2, cache2) →
      cache2.used_memory ≤ cache.config.low_watermark) := by
  have hfree : ∀ (o : List (Nat × UfoObject)) (s2 : UfoChunks),
      cache.free_until_low_water_mark H objs = Except.ok (o, s2) →
      s2.used_memory ≤ cache.config.low_watermark := by
    intro o s2 h
    unfold UfoChunks.free_until_low_water_mark at h
    split at h
    · exact absurd h (by simp)
    next r hgo =>
      cases h
      exact free_until_go_le H cache.config.low_watermark cache.loaded_chunks
        objs cache.used_memory r.1 r.2.1 r.2.2 (by rw [hgo])
  refine ⟨?_, hfree o2 cache2⟩
  intro hsize hcfg h
  unfold ensure_capcity at h
  split at h
  next hassert =>
    split at h
    next hover =>
      have := hfree o1 cache1 h
      simp only [UfoChunks.add]
      rw [hcfg] at this
      omega
    next hno =>
      cases h
      simp only [UfoChunks.add]
      omega
  · exact absurd h (by simp)

theorem watermark_compliance_witness :
    ((UfoChunk.size ⟨2, ⟨0, 1, 0, 0⟩, some 4, 0⟩ ≤ 5)
      ∧ ensure_capcity (fun l => l.sum) ⟨"/tmp", 20, 3⟩ []
          ⟨[⟨1, ⟨0, 1, 0, 0⟩, some 9, 0⟩, ⟨1, ⟨0, 1, 0, 2⟩, some 8, 0⟩], 17, ⟨"/tmp", 20, 3⟩⟩ 5
        = Except.ok ([], ⟨[], 0, ⟨"/tmp", 20, 3⟩⟩)
      ∧ (UfoChunks.add ⟨[], 0, ⟨"/tmp", 20, 3⟩⟩ ⟨2, ⟨0, 1, 0, 0⟩, some 4, 0⟩).used_memory ≤ 20)
  ∧ ((UfoChunks.free_until_low_water_mark (fun l => l.sum) []
        ⟨[⟨1, ⟨0, 1, 0, 0⟩, some 9, 0⟩, ⟨1, ⟨0, 1, 0, 2⟩, some 8, 0⟩], 17, ⟨"/tmp", 20, 3⟩⟩
      = Except.ok ([], ⟨[], 0, ⟨"/tmp", 20, 3⟩⟩))
      ∧ (UfoChunks.mk [] 0 ⟨"/tmp", 20, 3⟩).used_memory
          ≤ (UfoChunks.mk [⟨1, ⟨0, 1, 0, 0⟩, some 9, 0⟩, ⟨1, ⟨0, 1, 0, 2⟩, some 8, 0⟩]
              17 ⟨"/tmp", 20, 3⟩).config.low_watermark) :=
  ⟨⟨by decide, rfl,
    (watermark_compliance (fun l => l.sum) ⟨"/tmp", 20, 3⟩ [] [] []
      ⟨[⟨1, ⟨0, 1, 0, 0⟩, some 9, 0⟩, ⟨1, ⟨0, 1, 0, 2⟩, some 8, 0⟩], 17, ⟨"/tmp", 20, 3⟩⟩
      ⟨[], 0, ⟨"/tmp", 20, 3⟩⟩ ⟨[], 0, ⟨"/tmp", 20, 3⟩⟩ 5
      ⟨2, ⟨0, 1, 0, 0⟩, some 4, 0⟩).1 (by decide) rfl rfl⟩,
   ⟨rfl,
    (watermark_compliance (fun l => l.sum) ⟨"/tmp", 20, 3⟩ [] [] []
      ⟨[⟨1, ⟨0, 1, 0, 0⟩, some 9, 0⟩, ⟨1, ⟨0, 1, 0, 2⟩, some 8, 0⟩], 17, ⟨"/tmp", 20, 3⟩⟩
      ⟨[], 0, ⟨"/tmp", 20, 3⟩⟩ ⟨[], 0, ⟨"/tmp", 20, 3⟩⟩ 5
      ⟨2, ⟨0, 1, 0, 0⟩, some 4, 0⟩).2 rfl⟩⟩

/-- Claim C4: for a non-tombstoned chunk whose owning object is still alive
(and whose range lies inside the object's mapping), eviction hashes the
chunk's current live bytes and persists them into the writeback region at
offset `bitmap_bytes + (chunk_offset − header_size_with_padding)` exactly when
that hash differs from the admission hash — bit-for-bit identical content
hashes identically and is not persisted — and afterwards the chunk is
tombstoned (`length := none`) and its former length is returned. -/
theorem eviction_writeback_protocol (H : List Nat → Nat) (obj : UfoObject)
    (c : UfoChunk) (len : Nat)
    (hlen : c.length = some len)
    (hbound : c.offset.absolute_offset_bytes + len ≤ obj.mmap.length) :
    ∃ obj1,
      UfoChunk.free_and_writeback_dirty H (some obj) c
        = Except.ok (some obj1, { c with length := none }, len)
      ∧ (H ((obj.mmap.drop c.offset.absolute_offset_bytes).take len) ≠ c.hash →
          obj1.writeback_util.mmap = list_write obj.writeback_util.mmap
            (obj.writeback_util.bitmap_bytes + c.offset.offset_from_header)
            ((obj.mmap.drop c.offset.absolute_offset_bytes).take len))
      ∧ (H ((obj.mmap.drop c.offset.absolute_offset_bytes).take len) = c.hash →
          obj1.writeback_util.mmap = obj.writeback_util.mmap) := by
  have hslice : ∀ (α : Type) (f : List Nat → α),
      with_slice obj.mmap c.offset.absolute_offset len f
        = some (f ((obj.mmap.drop c.offset.absolute_offset_bytes).take len)) := by
    intro α f
    unfold with_slice UfoOffset.absolute_offset
    rw [if_pos hbound]
  have hlive_len : ((obj.mmap.drop c.offset.absolute_offset_bytes).take len).length
      = len := by
    rw [List.length_take, List.length_drop]
    omega
  by_cases hdirty : c.hash ≠ H ((obj.mmap.drop c.offset.absolute_offset_bytes).take len)
  · have hwb : obj.writeback c = Except.ok { obj with writeback_util :=
        { obj.writeback_util with
          mmap := list_write obj.writeback_util.mmap
            (obj.writeback_util.bitmap_bytes + c.offset.offset_from_header)
            ((obj.mmap.drop c.offset.absolute_offset_bytes).take len) } } := by
      simp only [UfoObject.writeback, hlen, hslice, hlive_len, if_pos]
    refine ⟨{ obj with
        writeback_util := { obj.writeback_util with
          mmap := list_write obj.writeback_util.mmap
            (obj.writeback_util.bitmap_bytes + c.offset.offset_from_header)
            ((obj.mmap.drop c.offset.absolute_offset_bytes).take len) },
        mmap := madvise_dontneed obj.mmap c.offset.absolute_offset len }, ?_, ?_, ?_⟩
    · simp only [UfoChunk.free_and_writeback_dirty, hlen, hslice, if_pos hdirty, hwb]
    · intro _
      rfl
    · intro heq
      exact absurd heq.symm hdirty
  · push_neg at hdirty
    have hclean : ¬ (c.hash ≠ H ((obj.mmap.drop c.offset.absolute_offset_bytes).take len)) :=
      not_not_intro hdirty
    refine ⟨{ obj with
        mmap := madvise_dontneed obj.mmap c.offset.absolute_offset len }, ?_, ?_, ?_⟩
    · simp only [UfoChunk.free_and_writeback_dirty, hlen, hslice, if_neg hclean]
    · intro hne
      exact absurd hdirty.symm hne
    · intro _
      rfl

theorem eviction_writeback_protocol_witness :
    ((some 2 : Option Nat) = some 2 ∧ 1 + 2 ≤ 4)
  ∧ ∃ obj1,
      UfoChunk.free_and_writeback_dirty (fun l => l.sum)
        (some ⟨1, ⟨0, 0, 1, 4, 2, 4⟩, 50, [1, 2, 3, 4], ⟨6, 2, [9, 9, 9, 9, 9, 9]⟩⟩)
        ⟨1, ⟨50, 1, 0, 1⟩, some 2, 77⟩
        = Except.ok (some obj1,
            { (⟨1, ⟨50, 1, 0, 1⟩, some 2, 77⟩ : UfoChunk) with length := none }, 2)
      ∧ ((fun (l : List Nat) => l.sum) (([1, 2, 3, 4].drop 1).take 2) ≠ 77 →
          obj1.writeback_util.mmap = list_write [9, 9, 9, 9, 9, 9] (2 + 1)
            (([1, 2, 3, 4].drop 1).take 2))
      ∧ ((fun (l : List Nat) => l.sum) (([1, 2, 3, 4].drop 1).take 2) = 77 →
          obj1.writeback_util.mmap = [9, 9, 9, 9, 9, 9]) :=
  ⟨⟨rfl, by decide⟩,
    eviction_writeback_protocol (fun l => l.sum)
      ⟨1, ⟨0, 0, 1, 4, 2, 4⟩, 50, [1, 2, 3, 4], ⟨6, 2, [9, 9, 9, 9, 9, 9]⟩⟩
      ⟨1, ⟨50, 1, 0, 1⟩, some 2, 77⟩ 2 rfl (by decide)⟩

/-- ufo_objects.rs `UfoIdGen::next`: probe successive ids (u64 wrapping
increment) until one is unused.  The unbounded Rust loop is given fuel; with
fuel exceeding the number of live objects a free id is always found, and the
fuel-exhausted fallback is unreachable in any run the claims quantify over. -/
def UfoIdGen.next_fueled (current : Nat) (used : List Nat) : Nat → Nat
  | 0 => current + 1
  | fuel + 1 =>
    let n := current + 1
    if n ∈ used then UfoIdGen.next_fueled n used fuel else n

/-- ufo_core.rs `UfoCoreState`: id generator, id map, segment map (segments
keep the owning id; the source keeps the same `Arc` in both maps), cache. -/
structure UfoCoreState where
  object_id_gen : Nat
  objects_by_id : List (Nat × UfoObject)
  objects_by_segment : List ((Nat × Nat) × Nat)
  loaded_chunks : UfoChunks
deriving DecidableEq

/-- SegmentMap point lookup: the segment `[lo, hi)` containing the address. -/
def segment_lookup (m : List ((Nat × Nat) × Nat)) (addr : Nat) :
    Option ((Nat × Nat) × Nat) :=
  m.find? (fun e => e.1.1 ≤ addr && addr < e.1.2)

/-- ufo_objects.rs `UfoHandle` (the weak engine reference is rendezvous
plumbing; `ptr` is the raw base pointer as an integer). -/
structure UfoHandle where
  id : Nat
  ptr : Nat
  header_offset : Nat
  body_offset : Nat
deriving DecidableEq

/-- ufo_objects.rs `UfoHandle::header_ptr`. -/
def UfoHandle.header_ptr (h : UfoHandle) : Nat := h.ptr + h.header_offset

/-- ufo_objects.rs `UfoHandle::body_ptr`. -/
def UfoHandle.body_ptr (h : UfoHandle) : Nat := h.ptr + h.body_offset

/-- ufo_core.rs `msg_loop::allocate_impl`.  `base` is the address returned by
the fresh anonymous reservation (platform-chosen, passed as a parameter); the
reservation reads as zeros.  Registration with the fault channel and the
header `zeropage` call are kernel effects; the model records the number of
bytes of pre-installed zero pages as the last component.  Returns the new
state, the user handle, and that zeropage length. -/
def allocate_impl (page_size : Nat) (s : UfoCoreState) (config : UfoObjectConfig)
    (base : Nat) : UfoCoreState × UfoHandle × Nat :=
  let id := UfoIdGen.next_fueled s.object_id_gen (s.objects_by_id.map Prod.fst)
    (s.objects_by_id.length + 1)
  let mmap := List.replicate config.true_size 0
  let segment := (base, base + config.true_size)
  let writeback := UfoFileWriteback.new page_size config
  let zeropage_len := if 0 < config.header_size_with_padding
    then config.header_size_with_padding else 0
  let header_offset := config.header_size_with_padding - config.header_size
  let body_offset := config.header_size_with_padding
  let ufo : UfoObject := { id := id, config := config, base_addr := base,
                           mmap := mmap, writeback_util := writeback }
  ({ s with object_id_gen := id,
            objects_by_id := s.objects_by_id ++ [(id, ufo)],
            objects_by_segment := s.objects_by_segment ++ [(segment, id)] },
   { id := id, ptr := base, header_offset := header_offset,
     body_offset := body_offset },
   zeropage_len)

/-- ufo_objects.rs `UfoObject::reset`: `madvise(MADV_DONTNEED)` over the whole
reservation and over the whole writeback mapping (clearing every bit). -/
def UfoObject.reset (o : UfoObject) : UfoObject :=
  { o with mmap := madvise_dontneed o.mmap 0 o.config.true_size,
           writeback_util := { o.writeback_util with
             mmap := madvise_dontneed o.writeback_util.mmap 0
               o.writeback_util.total_bytes } }

/-- ufo_core.rs `msg_loop::reset_impl`: unknown id fails with "unknown ufo"
before any state is touched. -/
def reset_impl (s : UfoCoreState) (ufo_id : Nat) : Except String UfoCoreState :=
  match lookup_id s.objects_by_id ufo_id with
  | none => Except.error "unknown ufo"
  | some ufo =>
    let ufo1 := ufo.reset
    Except.ok { s with
      objects_by_id := update_id s.objects_by_id ufo_id (some ufo1),
      loaded_chunks := s.loaded_chunks.drop_ufo_chunks ufo_id }

/-- HashMap::remove on the id map: the removed object and the remaining map. -/
def remove_id (m : List (Nat × UfoObject)) (id : Nat) :
    Option (UfoObject × List (Nat × UfoObject)) :=
  match m with
  | [] => none
  | kv :: rest =>
    if kv.1 = id then some (kv.2, rest)
    else (remove_id rest id).map (fun r => (r.1, kv :: r.2))

/-- ufo_core.rs `msg_loop::free_impl`: remove from the id map (unknown id
fails with "No such Ufo"), unregister from the fault channel (kernel effect),
remove the segment, tombstone the object's cached chunks. -/
def free_impl (s : UfoCoreState) (ufo_id : Nat) : Except String UfoCoreState :=
  match remove_id s.objects_by_id ufo_id with
  | none => Except.error "No such Ufo"
  | some r =>
    let ufo := r.1
    match segment_lookup s.objects_by_segment ufo.base_addr with
    | none => Except.error "memory segment missing"
    | some entry =>
      Except.ok { s with
        objects_by_id := r.2,
        objects_by_segment :=
          s.objects_by_segment.filter (fun e => decide (e.1 ≠ entry.1)),
        loaded_chunks := s.loaded_chunks.drop_ufo_chunks ufo_id }

/-- ufo_core.rs `msg_loop::shutdown_impl`: free every remaining object. -/
def shutdown_impl (s : UfoCoreState) : Except String UfoCoreState :=
  (s.objects_by_id.map Prod.fst).foldlM (fun st k => free_impl st k) s

/-- ufo_core.rs `UfoInstanceMsg`.  WaitGroups and the Allocate fulfiller are
rendezvous plumbing; Allocate carries the platform-chosen reservation base. -/
inductive UfoInstanceMsg
  | Shutdown
  | Allocate (config : UfoObjectConfig) (base : Nat)
  | Reset (ufo_id : Nat)
  | Free (ufo_id : Nat)
deriving DecidableEq

/-- The fate of the control loop after handling one message. -/
inductive StepResult
  | running (s : UfoCoreState)
  | panicked (msg : String) (s : UfoCoreState)
  | done (s : UfoCoreState)
deriving DecidableEq

/-- One iteration of ufo_core.rs `msg_loop`: each `impl` result is unwrapped
with `expect`, so an `Err` kills the message thread (panicked) with the
engine state as the mutex left it. -/
def msg_loop_step (page_size : Nat) (s : UfoCoreState) (m : UfoInstanceMsg) :
    StepResult :=
  match m with
  | UfoInstanceMsg.Allocate config base =>
    StepResult.running (allocate_impl page_size s config base).1
  | UfoInstanceMsg.Reset ufo_id =>
    match reset_impl s ufo_id with
    | Except.ok s1 => StepResult.running s1
    | Except.error _ => StepResult.panicked "Reset Error" s
  | UfoInstanceMsg.Free ufo_id =>
    match free_impl s ufo_id with
    | Except.ok s1 => StepResult.running s1
    | Except.error _ => StepResult.panicked "Free Error" s
  | UfoInstanceMsg.Shutdown =>
    match shutdown_impl s with
    | Except.ok s1 => StepResult.done s1
    | Except.error _ => StepResult.panicked "err on free" s

/-- The object serving an address: segment-map point lookup, resolved to the
object (the source's segment map stores the same `Arc` as the id map). -/
def ufo_for_addr (s : UfoCoreState) (addr : Nat) : Option UfoObject :=
  (segment_lookup s.objects_by_segment addr).bind
    (fun entry => lookup_id s.objects_by_id entry.2)

/-- What one fault-service pass produced (besides the new core state):
the populate window `[start, pop_end)`, the byte count handed to
`uffd.copy` (`copy_size`), the bytes actually installed, and the chunk
recorded in the cache. -/
structure PopulateInfo where
  start : Nat
  pop_end : Nat
  copy_size : Nat
  installed : List Nat
  chunk : UfoChunk
deriving DecidableEq

/-- ufo_core.rs `populate_loop::populate_impl`.
`H` is the blake3 hash (an explicit function parameter).  `readback` is the
result of `writeback_util.try_readback` — modelled from the spec, since that
method is not under src/: when the chunk's writeback bitmap bit is set it
returns the chunk's saved bytes, otherwise none.  `populate` gives the
`(pop_end − start) × stride` bytes the user callback writes at the start of
the shared write buffer, and `buffer_rest` the stale bytes of that buffer
beyond them (`buffer.slice()[0..load_size]` reads `load_size` bytes of the
buffer regardless of how many the callback wrote).  The usize subtraction in
`copy_size`, the final `assert!(raw_data.len() == load_size)` and the
`unwrap`s keep their panic branches. -/
def populate_impl (H : List Nat → Nat) (config_core : UfoCoreConfig)
    (s : UfoCoreState) (addr : Nat) (readback : Option (List Nat))
    (populate : Nat → Nat → List Nat) (buffer_rest : List Nat) :
    Except String (UfoCoreState × PopulateInfo) :=
  match ufo_for_addr s addr with
  | none => Except.error "panic: no ufo for address"
  | some ufo =>
    match UfoOffset.from_addr ufo addr with
    | Except.error e => Except.error e
    | Except.ok fault_offset =>
      let config := ufo.config
      let load_size := config.elements_loaded_at_once * config.stride
      let populate_offset := fault_offset.down_to_nearest_n_relative_to_header load_size
      let start := populate_offset.as_index_floor
      let pop_end := min (start + config.elements_loaded_at_once) config.element_ct
      if config.true_size < populate_offset.absolute_offset then
        Except.error "panic: usize underflow"
      else
        let copy_size := min load_size (config.true_size - populate_offset.absolute_offset)
        match ensure_capcity H config_core s.objects_by_id s.loaded_chunks load_size with
        | Except.error e => Except.error e
        | Except.ok r =>
          let raw_data := match readback with
            | some d => d
            | none => ((populate start pop_end) ++ buffer_rest).take load_size
          if raw_data.length = load_size then
            let chunk := UfoChunk.new H ufo.id populate_offset raw_data
            let objs2 := r.1.map (fun kv =>
              if kv.1 = ufo.id then
                (kv.1, { kv.2 with mmap := (list_write kv.2.mmap
                  populate_offset.absolute_offset (raw_data.take copy_size)) })
              else kv)
            Except.ok ({ s with objects_by_id := objs2,
                                loaded_chunks := r.2.add chunk },
              { start := start, pop_end := pop_end, copy_size := copy_size,
                installed := raw_data.take copy_size, chunk := chunk })
          else Except.error "panic: assert raw_data len"

theorem from_addr_ok_fields (ufo : UfoObject) (addr : Nat) (o : UfoOffset)
    (h : UfoOffset.from_addr ufo addr = Except.ok o) :
    o = { base_addr := ufo.base_addr, stride := ufo.config.stride,
          header_bytes := ufo.config.header_size_with_padding,
          absolute_offset_bytes := addr - ufo.base_addr } := by
  simp only [UfoOffset.from_addr] at h
  split at h
  · exact absurd h (by simp)
  · split at h
    · exact absurd h (by simp)
    · cases h
      rfl

/-- Claim C5: every successfully serviced fault populates at the chunk-aligned
offset `header_size_with_padding + floor((absolute − header_size_with_padding)
/ chunk_size) × chunk_size` (chunk_size = elements_loaded_at_once × stride),
and calls the populate window with `start = (aligned_offset −
header_size_with_padding) / stride` and `end = min(start +
elements_loaded_at_once, element_ct)`. -/
theorem fault_window_arithmetic (H : List Nat → Nat) (config_core : UfoCoreConfig)
    (s : UfoCoreState) (addr : Nat) (readback : Option (List Nat))
    (populate : Nat → Nat → List Nat) (buffer_rest : List Nat)
    (ufo : UfoObject) (s1 : UfoCoreState) (info : PopulateInfo)
    (hufo : ufo_for_addr s addr = some ufo)
    (hok : populate_impl H config_core s addr readback populate buffer_rest
            = Except.ok (s1, info)) :
    info.chunk.offset.absolute_offset_bytes
      = ufo.config.header_size_with_padding
        + ((addr - ufo.base_addr - ufo.config.header_size_with_padding)
            / (ufo.config.elements_loaded_at_once * ufo.config.stride))
          * (ufo.config.elements_loaded_at_once * ufo.config.stride)
  ∧ info.start = (info.chunk.offset.absolute_offset_bytes
        - ufo.config.header_size_with_padding) / ufo.config.stride
  ∧ info.pop_end = min (info.start + ufo.config.elements_loaded_at_once)
        ufo.config.element_ct := by
  simp only [populate_impl, hufo] at hok
  split at hok
  · exact absurd hok (by simp)
  next fault_offset heq =>
    have hfo := from_addr_ok_fields ufo addr fault_offset heq
    subst hfo
    split at hok
    · exact absurd hok (by simp)
    · split at hok
      · exact absurd hok (by simp)
      next r hens =>
        split at hok
        next hraw =>
          cases hok
          refine ⟨?_, ?_, ?_⟩
          · simp [UfoChunk.new, UfoOffset.down_to_nearest_n_relative_to_header,
              UfoOffset.offset_from_header, down_to_nearest]
          · simp [UfoChunk.new, UfoOffset.down_to_nearest_n_relative_to_header,
              UfoOffset.as_index_floor, UfoOffset.offset_from_header]
          · rfl
        · exact absurd hok (by simp)

def cfgObjW5 : UfoObjectConfig := ⟨4, 3, 1, 4, 8, 12⟩

def ufoW5 : UfoObject :=
  ⟨1, cfgObjW5, 100, List.replicate 12 0, ⟨12, 4, List.replicate 12 0⟩⟩

def sW5 : UfoCoreState :=
  ⟨1, [(1, ufoW5)], [((100, 112), 1)], ⟨[], 0, ⟨"/tmp", 100, 10⟩⟩⟩

def s1W5 : UfoCoreState :=
  ⟨1, [(1, ⟨1, cfgObjW5, 100, [0, 0, 0, 0, 5, 5, 5, 5, 0, 0, 0, 0],
      ⟨12, 4, List.replicate 12 0⟩⟩)], [((100, 112), 1)],
    ⟨[⟨1, ⟨100, 1, 4, 4⟩, some 4, 20⟩], 4, ⟨"/tmp", 100, 10⟩⟩⟩

def infoW5 : PopulateInfo :=
  ⟨0, 4, 4, [5, 5, 5, 5], ⟨1, ⟨100, 1, 4, 4⟩, some 4, 20⟩⟩

theorem fault_window_arithmetic_witness :
    (ufo_for_addr sW5 106 = some ufoW5
      ∧ populate_impl (fun l => l.sum) ⟨"/tmp", 100, 10⟩ sW5 106 none
          (fun s e => List.replicate (e - s) 5) [] = Except.ok (s1W5, infoW5))
  ∧ (infoW5.chunk.offset.absolute_offset_bytes
      = ufoW5.config.header_size_with_padding
        + ((106 - ufoW5.base_addr - ufoW5.config.header_size_with_padding)
            / (ufoW5.config.elements_loaded_at_once * ufoW5.config.stride))
          * (ufoW5.config.elements_loaded_at_once * ufoW5.config.stride)
    ∧ infoW5.start = (infoW5.chunk.offset.absolute_offset_bytes
        - ufoW5.config.header_size_with_padding) / ufoW5.config.stride
    ∧ infoW5.pop_end = min (infoW5.start + ufoW5.config.elements_loaded_at_once)
        ufoW5.config.element_ct) :=
  ⟨⟨rfl, rfl⟩,
    fault_window_arithmetic (fun l => l.sum) ⟨"/tmp", 100, 10⟩ sW5 106 none
      (fun s e => List.replicate (e - s) 5) [] ufoW5 s1W5 infoW5 rfl rfl⟩

def cfgObjW1 : UfoObjectConfig := ⟨0, 0, 3, 4, 2, 8⟩

def ufoW1 : UfoObject :=
  ⟨1, cfgObjW1, 100, List.replicate 8 0, ⟨10, 4, List.replicate 10 0⟩⟩

def sW1 : UfoCoreState :=
  ⟨1, [(1, ufoW1)], [((100, 108), 1)], ⟨[], 0, ⟨"/tmp", 100, 10⟩⟩⟩

/-- Claim C1 (code bug): at page size 4, `header_size = 0`, `stride = 3`,
`element_ct = 2`, `min_load_ct = 1` the chunk size is `lcm(4, 3) = 12` while
`true_size = 8`, so the single chunk of the object is short.  A fault at the
object base is serviced successfully and installs exactly `min(chunk_size,
true_size − aligned_offset) = 8` bytes, as the claim states — but the chunk
is recorded with the full buffer length 12 (`UfoChunk::new` receives the
`load_size`-byte buffer slice, not the `copy_size` prefix), so
`offset + length = 12 > true_size = 8`, contradicting the rest of the claim
(and spec invariant 5). -/
theorem last_chunk_recorded_with_full_length :
    UfoObjectConfig.new_config 4 0 2 3 none = Except.ok cfgObjW1
  ∧ ((populate_impl (fun l => l.sum) ⟨"/tmp", 100, 10⟩ sW1 100 none
        (fun s e => List.replicate ((e - s) * 3) 7) (List.replicate 12 0)).map
      (fun r => (r.2.copy_size, r.2.chunk.offset.absolute_offset_bytes, r.2.chunk.size))
      = Except.ok (8, 0, 12))
  ∧ min (cfgObjW1.elements_loaded_at_once * cfgObjW1.stride) (cfgObjW1.true_size - 0) = 8
  ∧ 0 + 12 > cfgObjW1.true_size :=
  ⟨rfl, rfl, rfl, by decide⟩

theorem lookup_none_remove_none : ∀ (m : List (Nat × UfoObject)) (id : Nat),
    lookup_id m id = none → remove_id m id = none := by
  intro m
  induction m with
  | nil => intro id h; rfl
  | cons kv rest ih =>
    intro id h
    simp only [lookup_id, List.find?] at h
    by_cases hk : kv.1 = id
    · have ht : (kv.1 == id) = true := by simp [hk]
      rw [ht] at h
      exact absurd h (by simp)
    · have hf : (kv.1 == id) = false := by simp [hk]
      rw [hf] at h
      simp only [remove_id, if_neg hk]
      rw [ih id h]
      rfl

/-- Claim C2 counterexample: on the concrete empty registry, a Reset (or
Free) carrying the unknown id 1 does not leave the control loop running — the
`expect` in `msg_loop` panics the message thread. -/
theorem unknown_id_panics_msg_loop :
    msg_loop_step 4 ⟨0, [], [], ⟨[], 0, ⟨"/tmp", 10, 2⟩⟩⟩ (UfoInstanceMsg.Reset 1)
      = StepResult.panicked "Reset Error" ⟨0, [], [], ⟨[], 0, ⟨"/tmp", 10, 2⟩⟩⟩
  ∧ msg_loop_step 4 ⟨0, [], [], ⟨[], 0, ⟨"/tmp", 10, 2⟩⟩⟩ (UfoInstanceMsg.Free 1)
      = StepResult.panicked "Free Error" ⟨0, [], [], ⟨[], 0, ⟨"/tmp", 10, 2⟩⟩⟩
  ∧ msg_loop_step 4 ⟨0, [], [], ⟨[], 0, ⟨"/tmp", 10, 2⟩⟩⟩ (UfoInstanceMsg.Reset 1)
      ≠ StepResult.running ⟨0, [], [], ⟨[], 0, ⟨"/tmp", 10, 2⟩⟩⟩ :=
  ⟨rfl, rfl, by decide⟩

/-- Claim C2 (amended): for every Reset or Free message carrying an id not in
the registry, `reset_impl`/`free_impl` fail with an error and the registry
and cache are untouched — but `msg_loop` unwraps that error with `expect`, so
the message thread panics (with the state unchanged) instead of continuing to
serve subsequent messages. -/
theorem unknown_id_fails_operation (page_size : Nat) (s : UfoCoreState)
    (ufo_id : Nat) (h : lookup_id s.objects_by_id ufo_id = none) :
    reset_impl s ufo_id = Except.error "unknown ufo"
  ∧ free_impl s ufo_id = Except.error "No such Ufo"
  ∧ msg_loop_step page_size s (UfoInstanceMsg.Reset ufo_id)
      = StepResult.panicked "Reset Error" s
  ∧ msg_loop_step page_size s (UfoInstanceMsg.Free ufo_id)
      = StepResult.panicked "Free Error" s := by
  have hrm := lookup_none_remove_none s.objects_by_id ufo_id h
  have h1 : reset_impl s ufo_id = Except.error "unknown ufo" := by
    unfold reset_impl
    rw [h]
  have h2 : free_impl s ufo_id = Except.error "No such Ufo" := by
    unfold free_impl
    rw [hrm]
  refine ⟨h1, h2, ?_, ?_⟩
  · show (match reset_impl s ufo_id with
      | Except.ok s1 => StepResult.running s1
      | Except.error _ => StepResult.panicked "Reset Error" s)
      = StepResult.panicked "Reset Error" s
    rw [h1]
  · show (match free_impl s ufo_id with
      | Except.ok s1 => StepResult.running s1
      | Except.error _ => StepResult.panicked "Free Error" s)
      = StepResult.panicked "Free Error" s
    rw [h2]

theorem unknown_id_fails_operation_witness :
    lookup_id (UfoCoreState.mk 0 [] [] ⟨[], 0, ⟨"/tmp", 10, 2⟩⟩).objects_by_id 1 = none
  ∧ (reset_impl ⟨0, [], [], ⟨[], 0, ⟨"/tmp", 10, 2⟩⟩⟩ 1 = Except.error "unknown ufo"
  ∧ free_impl ⟨0, [], [], ⟨[], 0, ⟨"/tmp", 10, 2⟩⟩⟩ 1 = Except.error "No such Ufo"
  ∧ msg_loop_step 8 ⟨0, [], [], ⟨[], 0, ⟨"/tmp", 10, 2⟩⟩⟩ (UfoInstanceMsg.Reset 1)
      = StepResult.panicked "Reset Error" ⟨0, [], [], ⟨[], 0, ⟨"/tmp", 10, 2⟩⟩⟩
  ∧ msg_loop_step 8 ⟨0, [], [], ⟨[], 0, ⟨"/tmp", 10, 2⟩⟩⟩ (UfoInstanceMsg.Free 1)
      = StepResult.panicked "Free Error" ⟨0, [], [], ⟨[], 0, ⟨"/tmp", 10, 2⟩⟩⟩) :=
  ⟨rfl, unknown_id_fails_operation 8 ⟨0, [], [], ⟨[], 0, ⟨"/tmp", 10, 2⟩⟩⟩ 1 rfl⟩

/-- ufos_c lib.rs `UfoCore::new_ufo_core`: the whole body runs under
`catch_unwind`, so the `assert!(low_water_mark < high_water_mark)` panic is
caught and the caller receives the null handle (`none`).  On success the
running engine is represented by its configuration (threads and the fault
channel are platform effects). -/
def new_ufo_core (writeback_temp_path : String)
    (low_water_mark high_water_mark : Nat) : Option UfoCoreConfig :=
  if low_water_mark < high_water_mark then
    some { writeback_temp_path := writeback_temp_path,
           high_watermark := high_water_mark,
           low_watermark := low_water_mark }
  else none

/-- ufo_objects.rs `UfoObjectConfigPrototype`. -/
structure UfoObjectConfigPrototype where
  header_size : Nat
  stride : Nat
  min_load_ct : Option Nat
deriving DecidableEq

/-- ufos_c lib.rs `UfoPrototype::new_ufo_prototype`:
`Some(min_load_ct).filter(|x| *x > 0)`. -/
def new_ufo_prototype (header_size stride min_load_ct : Nat) :
    UfoObjectConfigPrototype :=
  { header_size := header_size, stride := stride,
    min_load_ct := if 0 < min_load_ct then some min_load_ct else none }

/-- ufo_objects.rs `UfoObjectConfigPrototype::new_config`. -/
def UfoObjectConfigPrototype.new_config (p : UfoObjectConfigPrototype)
    (page_size ct : Nat) : Except String UfoObjectConfig :=
  UfoObjectConfig.new_config page_size p.header_size ct p.stride p.min_load_ct

/-- ufos_c lib.rs `UfoCore::new_ufo`: builds the object config from the
prototype under `catch_unwind`; a panic inside config construction (or any
allocation failure) yields the null object handle (`none`).  The successful
branch hands the config to `allocate_ufo`; the resulting handle is
represented by the config it carries. -/
def new_ufo (page_size : Nat) (proto : UfoObjectConfigPrototype) (ct : Nat) :
    Option UfoObjectConfig :=
  match proto.new_config page_size ct with
  | Except.ok cfg => some cfg
  | Except.error _ => none

/-- Claim C8: invalid configurations fail construction with an error reported
to the caller rather than crashing a healthy engine: watermark inversion
(`low ≥ high`) makes `new_ufo_core` return the null handle, and a zero stride
makes object-configuration construction (`new_config`, whose division
`min_load_bytes / stride` panics, caught at the FFI boundary by `new_ufo`)
return the null handle. -/
theorem invalid_configuration_fails_construction (path : String)
    (low high page_size header_size min_load ct : Nat) (hlh : high ≤ low) :
    new_ufo_core path low high = none
  ∧ new_ufo page_size (new_ufo_prototype header_size 0 min_load) ct = none
  ∧ (∃ e, UfoObjectConfig.new_config page_size header_size ct 0
        (new_ufo_prototype header_size 0 min_load).min_load_ct
        = Except.error e) := by
  refine ⟨?_, ?_, ?_⟩
  · unfold new_ufo_core
    rw [if_neg (by omega)]
  · unfold new_ufo UfoObjectConfigPrototype.new_config new_ufo_prototype
    rfl
  · exact ⟨_, rfl⟩

theorem invalid_configuration_fails_construction_witness :
    (5 : Nat) ≤ 5
  ∧ (new_ufo_core "/tmp" 5 5 = none
  ∧ new_ufo 4 (new_ufo_prototype 2 0 1) 3 = none
  ∧ (∃ e, UfoObjectConfig.new_config 4 2 3 0
        (new_ufo_prototype 2 0 1).min_load_ct = Except.error e)) :=
  ⟨by decide, invalid_configuration_fails_construction "/tmp" 5 5 4 2 1 3 (by decide)⟩

def except_is_ok (e : Except String UfoOffset) : Bool :=
  match e with
  | Except.ok _ => true
  | Except.error _ => false

/-- Claim C9: Allocate pre-installs zeroed pages over exactly the padded
header region (`zeropage(base, header_size_with_padding)`, so every header
byte is resident and never faults), and constructing an offset from a fault
address below `base + header_size_with_padding` — including addresses below
`base` — panics (`from_addr` aborts) instead of returning an offset. -/
theorem header_prezeroed_and_header_fault_aborts (page_size : Nat)
    (s : UfoCoreState) (config : UfoObjectConfig) (base : Nat)
    (ufo : UfoObject) (addr : Nat)
    (h : addr < ufo.base_addr + ufo.config.header_size_with_padding) :
    (allocate_impl page_size s config base).2.2 = config.header_size_with_padding
  ∧ except_is_ok (UfoOffset.from_addr ufo addr) = false := by
  constructor
  · by_cases hpos : 0 < config.header_size_with_padding
    · simp [allocate_impl, hpos]
    · simp [allocate_impl, hpos]
      omega
  · unfold UfoOffset.from_addr
    by_cases hb : addr < ufo.base_addr
    · rw [if_pos hb]
      rfl
    · rw [if_neg hb]
      rw [if_pos (by omega)]
      rfl

theorem header_prezeroed_and_header_fault_aborts_witness :
    (102 < 100 + (UfoObject.mk 1 ⟨4, 3, 1, 4, 8, 12⟩ 100 [] ⟨0, 0, []⟩).config.header_size_with_padding)
  ∧ ((allocate_impl 4 ⟨0, [], [], ⟨[], 0, ⟨"/tmp", 10, 2⟩⟩⟩ ⟨4, 3, 1, 4, 8, 12⟩ 200).2.2
      = (UfoObjectConfig.mk 4 3 1 4 8 12).header_size_with_padding
  ∧ except_is_ok (UfoOffset.from_addr ⟨1, ⟨4, 3, 1, 4, 8, 12⟩, 100, [], ⟨0, 0, []⟩⟩ 102)
      = false) :=
  ⟨by decide,
    header_prezeroed_and_header_fault_aborts 4 ⟨0, [], [], ⟨[], 0, ⟨"/tmp", 10, 2⟩⟩⟩
      ⟨4, 3, 1, 4, 8, 12⟩ 200 ⟨1, ⟨4, 3, 1, 4, 8, 12⟩, 100, [], ⟨0, 0, []⟩⟩ 102
      (by decide)⟩

/-- Claim C10: for every handle produced by Allocate from a configuration
built by `new_config` (positive page size), `header_ptr + header_size =
body_ptr` — the user-visible header occupies the last `header_size` bytes of
the padded header region, adjacent to the body — and with `header_size = 0`
the two pointers coincide. -/
theorem header_ptr_adjacent_to_body_ptr (page_size0 : Nat) (s : UfoCoreState)
    (base page header ct stride : Nat) (mlc : Option Nat) (cfg : UfoObjectConfig)
    (hp : 0 < page)
    (hcfg : UfoObjectConfig.new_config page header ct stride mlc = Except.ok cfg) :
    (allocate_impl page_size0 s cfg base).2.1.header_ptr + cfg.header_size
      = (allocate_impl page_size0 s cfg base).2.1.body_ptr
  ∧ (cfg.header_size = 0 →
      (allocate_impl page_size0 s cfg base).2.1.header_ptr
        = (allocate_impl page_size0 s cfg base).2.1.body_ptr) := by
  obtain ⟨hh, -, -, hpad, -, -⟩ :=
    new_config_ok_fields page header ct stride mlc cfg hcfg
  have hle : cfg.header_size ≤ cfg.header_size_with_padding := by
    rw [hh, hpad]
    exact up_to_nearest_le header page hp
  have h1 : (allocate_impl page_size0 s cfg base).2.1.header_ptr
      = base + (cfg.header_size_with_padding - cfg.header_size) := rfl
  have h2 : (allocate_impl page_size0 s cfg base).2.1.body_ptr
      = base + cfg.header_size_with_padding := rfl
  constructor
  · rw [h1, h2]
    omega
  · intro h0
    rw [h1, h2, h0]
    omega

def cfgObjW10 : UfoObjectConfig := ⟨4, 3, 1, 4, 2, 8⟩

theorem header_ptr_adjacent_to_body_ptr_witness :
    (0 < 4 ∧ UfoObjectConfig.new_config 4 3 2 1 none = Except.ok cfgObjW10)
  ∧ ((allocate_impl 4 ⟨0, [], [], ⟨[], 0, ⟨"/tmp", 10, 2⟩⟩⟩ cfgObjW10 200).2.1.header_ptr
        + cfgObjW10.header_size
      = (allocate_impl 4 ⟨0, [], [], ⟨[], 0, ⟨"/tmp", 10, 2⟩⟩⟩ cfgObjW10 200).2.1.body_ptr
  ∧ (cfgObjW10.header_size = 0 →
      (allocate_impl 4 ⟨0, [], [], ⟨[], 0, ⟨"/tmp", 10, 2⟩⟩⟩ cfgObjW10 200).2.1.header_ptr
        = (allocate_impl 4 ⟨0, [], [], ⟨[], 0, ⟨"/tmp", 10, 2⟩⟩⟩ cfgObjW10 200).2.1.body_ptr)) :=
  ⟨⟨by decide, rfl⟩,
    header_ptr_adjacent_to_body_ptr 4 ⟨0, [], [], ⟨[], 0, ⟨"/tmp", 10, 2⟩⟩⟩ 200
      4 3 2 1 none cfgObjW10 (by decide) rfl⟩
